import Mathlib

/-!
Verification of the OAuth token lifecycle core (`StravaAuth`) of the
strava-mcp server, shallowly embedded from `src/auth` (the `StravaAuth`
class).  Network effects are modelled by an explicit oracle
`net : TokenRequest → FetchResponse`; every operation returns its result,
the updated store, and the list of HTTP requests it sent, so claims about
"no network call" / "exactly one refresh" are statements about that list.
Time (`Date.now()/1000`) is passed in explicitly as `now`.
-/

namespace StravaMcp

/-- The credential triple stored by the auth component
(`StravaTokens` in `src/types/strava.ts`). -/
structure StravaTokens where
  accessToken : String
  refreshToken : String
  expiresAt : Nat
  deriving Repr, DecidableEq

/-- Body of a successful token-endpoint response
(`StravaTokenResponse`). -/
structure StravaTokenResponse where
  access_token : String
  refresh_token : String
  expires_at : Nat
  expires_in : Nat
  token_type : String
  deriving Repr, DecidableEq

/-- Grant type field of a token-endpoint request body. -/
inductive GrantType where
  | authorizationCode
  | refreshToken
  deriving Repr, DecidableEq

/-- A POST made by the auth component against the token endpoint: the
URL and the JSON body fields (`client_id`, `client_secret`,
`code`/`refresh_token` payload, `grant_type`). -/
structure TokenRequest where
  url : String
  client_id : String
  client_secret : String
  payload : String
  grant_type : GrantType
  deriving Repr, DecidableEq

/-- Outcome of a `fetch` of the token endpoint, as far as the code
inspects it: either `response.ok` with a parsed `StravaTokenResponse`
body, or a non-2xx response with its status text and the optional
`message` field of its JSON body (`none` when the body is not parseable
JSON or has no `message`). -/
inductive FetchResponse where
  | success (data : StravaTokenResponse)
  | failure (statusText : String) (message : Option String)
  deriving Repr, DecidableEq

/-- The mutable auth store: the client identity fixed at construction
and the optional credential (`tokens` field of `StravaAuth`). -/
structure StravaAuth where
  clientId : String
  clientSecret : String
  tokens : Option StravaTokens
  deriving Repr, DecidableEq

/-- Errors surfaced by the auth component, one constructor per `throw`
site, carrying the thrown message. -/
inductive AuthError where
  | noCredential (msg : String)
  | exchangeFailed (msg : String)
  | refreshFailed (msg : String)
  deriving Repr, DecidableEq

/-- The network oracle: what the token endpoint answers to each request. -/
def Net : Type := TokenRequest → FetchResponse

/-- `error.message || response.statusText`: the JS `||` falls back to the
status text when the body had no usable `message` (absent, unparseable,
or the empty string, which is falsy). -/
def effectiveMessage (message : Option String) (statusText : String) : String :=
  match message with
  | some m => if m = "" then statusText else m
  | none => statusText

/-- The token endpoint URL used by every exchange/refresh call. -/
def tokenEndpoint : String := "https://www.strava.com/oauth/token"

/-- `StravaAuth` constructor. -/
def StravaAuth.mk' (clientId clientSecret : String) : StravaAuth :=
  { clientId := clientId, clientSecret := clientSecret, tokens := none }

/-- `StravaAuth.setTokens`: installs the given triple unconditionally. -/
def StravaAuth.setTokens (a : StravaAuth)
    (accessToken refreshToken : String) (expiresAt : Nat) : StravaAuth :=
  { a with tokens := some (StravaTokens.mk accessToken refreshToken expiresAt) }

/-- `StravaAuth.hasTokens`: `this.tokens !== null`. -/
def StravaAuth.hasTokens (a : StravaAuth) : Bool :=
  a.tokens.isSome

/-- The request body `exchangeToken` sends: client identity, the
authorization code, `grant_type: "authorization_code"`. -/
def exchangeRequest (a : StravaAuth) (code : String) : TokenRequest :=
  { url := tokenEndpoint
    client_id := a.clientId
    client_secret := a.clientSecret
    payload := code
    grant_type := GrantType.authorizationCode }

/-- The request body `refreshAccessToken` sends: client identity, the
stored refresh token, `grant_type: "refresh_token"`. -/
def refreshRequest (a : StravaAuth) (t : StravaTokens) : TokenRequest :=
  { url := tokenEndpoint
    client_id := a.clientId
    client_secret := a.clientSecret
    payload := t.refreshToken
    grant_type := GrantType.refreshToken }

/-- `StravaAuth.exchangeToken code`: POSTs the authorization code to the
token endpoint; on `response.ok` installs and returns the new credential,
otherwise throws `Failed to exchange token: ...` leaving the store
untouched. -/
def StravaAuth.exchangeToken (net : Net) (a : StravaAuth) (code : String) :
    Except AuthError StravaTokens × StravaAuth × List TokenRequest :=
  let req : TokenRequest := exchangeRequest a code
  match net req with
  | FetchResponse.failure statusText message =>
      (Except.error (AuthError.exchangeFailed
        ("Failed to exchange token: " ++ effectiveMessage message statusText)),
       a, [req])
  | FetchResponse.success data =>
      let newTokens : StravaTokens :=
        { accessToken := data.access_token
          refreshToken := data.refresh_token
          expiresAt := data.expires_at }
      (Except.ok newTokens, { a with tokens := some newTokens }, [req])

/-- `StravaAuth.refreshAccessToken`: throws when no tokens are stored
(before any fetch); otherwise POSTs the stored refresh token and on
success replaces the whole credential, on non-2xx throws
`Failed to refresh token: ...` leaving the store untouched. -/
def StravaAuth.refreshAccessToken (net : Net) (a : StravaAuth) :
    Except AuthError StravaTokens × StravaAuth × List TokenRequest :=
  match a.tokens with
  | none =>
      (Except.error (AuthError.noCredential "No tokens available to refresh"),
       a, [])
  | some t =>
      let req : TokenRequest := refreshRequest a t
      match net req with
      | FetchResponse.failure statusText message =>
          (Except.error (AuthError.refreshFailed
            ("Failed to refresh token: " ++ effectiveMessage message statusText)),
           a, [req])
      | FetchResponse.success data =>
          let newTokens : StravaTokens :=
            { accessToken := data.access_token
              refreshToken := data.refresh_token
              expiresAt := data.expires_at }
          (Except.ok newTokens, { a with tokens := some newTokens }, [req])

/-- The 5-minute expiry buffer (`bufferTime = 300`). -/
def bufferTime : Nat := 300

/-- `StravaAuth.getValidAccessToken`: throws when no tokens are stored;
refreshes first when `expiresAt <= now + 300`; returns the (possibly
just refreshed) stored access token. -/
def StravaAuth.getValidAccessToken (net : Net) (now : Nat) (a : StravaAuth) :
    Except AuthError String × StravaAuth × List TokenRequest :=
  match a.tokens with
  | none =>
      (Except.error
        (AuthError.noCredential "No tokens available. Please authenticate first."),
       a, [])
  | some t =>
      if t.expiresAt ≤ now + bufferTime then
        match StravaAuth.refreshAccessToken net a with
        | (Except.error e, a', reqs) => (Except.error e, a', reqs)
        | (Except.ok toks, a', reqs) => (Except.ok toks.accessToken, a', reqs)
      else
        (Except.ok t.accessToken, a, [])

/-- Hex digit (uppercase) for `n < 16`, as `URLSearchParams` emits in
percent escapes. -/
def hexDigit (n : Nat) : Char :=
  if n < 10 then Char.ofNat (48 + n) else Char.ofNat (65 + (n - 10))

/-- UTF-8 bytes of a character (standard 1–4 byte encoding). -/
def utf8Bytes (c : Char) : List Nat :=
  let n := c.toNat
  if n < 0x80 then [n]
  else if n < 0x800 then
    [0xC0 + n / 64, 0x80 + n % 64]
  else if n < 0x10000 then
    [0xE0 + n / 4096, 0x80 + n / 64 % 64, 0x80 + n % 64]
  else
    [0xF0 + n / 262144, 0x80 + n / 4096 % 64, 0x80 + n / 64 % 64, 0x80 + n % 64]

/-- `application/x-www-form-urlencoded` encoding of one byte, as
`URLSearchParams.toString` does it: ASCII alphanumerics and `*-._` are
kept, space becomes `+`, everything else is `%XX`. -/
def encodeByte (b : Nat) : String :=
  if (48 ≤ b ∧ b ≤ 57) ∨ (65 ≤ b ∧ b ≤ 90) ∨ (97 ≤ b ∧ b ≤ 122)
      ∨ b = 42 ∨ b = 45 ∨ b = 46 ∨ b = 95 then
    String.singleton (Char.ofNat b)
  else if b = 32 then "+"
  else "%" ++ String.singleton (hexDigit (b / 16)) ++ String.singleton (hexDigit (b % 16))

/-- `URLSearchParams` encoding of one string value. -/
def urlencode (s : String) : String :=
  String.join ((s.data.flatMap utf8Bytes).map encodeByte)

/-- `URLSearchParams({...}).toString()`: `k=v` pairs in insertion order,
joined by `&`, keys and values form-urlencoded. -/
def serializeParams (ps : List (String × String)) : String :=
  match ps with
  | [] => ""
  | [p] => urlencode p.1 ++ "=" ++ urlencode p.2
  | p :: rest => urlencode p.1 ++ "=" ++ urlencode p.2 ++ "&" ++ serializeParams rest

/-- The authorization (consent) endpoint base URL. -/
def authorizeEndpoint : String := "https://www.strava.com/oauth/authorize"

/-- Default `scope` argument of `getAuthorizationUrl`. -/
def defaultScope : String := "read,activity:read_all,activity:write,profile:read_all"

/-- `StravaAuth.getAuthorizationUrl`: builds the consent URL from the
client id, the redirect URI and the scope via `URLSearchParams`. -/
def StravaAuth.getAuthorizationUrl (a : StravaAuth) (redirectUri : String)
    (scope : String := defaultScope) : String :=
  authorizeEndpoint ++ "?" ++ serializeParams
    [("client_id", a.clientId),
     ("redirect_uri", redirectUri),
     ("response_type", "code"),
     ("scope", scope)]

/-!
Interleaving model for concurrent `getValidAccessToken` callers.
JavaScript is single threaded: a caller runs synchronously from entry
down to the `await fetch(...)` inside `refreshAccessToken`, suspends
there, and resumes when its response arrives, then synchronously stores
the new tokens and returns `this.tokens.accessToken`.  A caller is thus
a two-phase coroutine; the scheduler picks which caller steps next.
-/

/-- Where one `getValidAccessToken` caller stands. -/
inductive CallerPhase where
  | start
  | awaitingFetch (req : TokenRequest)
  | done (result : Except AuthError String)
  deriving Repr

/-- Shared state of the two-caller system: the one shared `StravaAuth`
object, each caller's phase, and the log of requests sent so far. -/
structure SysState where
  auth : StravaAuth
  c1 : CallerPhase
  c2 : CallerPhase
  log : List TokenRequest
  deriving Repr

/-- One scheduler action: let a caller run from its entry point, or
deliver its pending fetch response. -/
inductive SchedStep where
  | run1
  | run2
  | resume1
  | resume2
  deriving Repr, DecidableEq

/-- Synchronous prefix of `getValidAccessToken`: the credential check,
the expiry check, and — when expiring — the synchronous prefix of
`refreshAccessToken` up to sending the fetch. -/
def startPhase (now : Nat) (a : StravaAuth) :
    CallerPhase × StravaAuth × List TokenRequest :=
  match a.tokens with
  | none =>
      (CallerPhase.done (Except.error
        (AuthError.noCredential "No tokens available. Please authenticate first.")),
       a, [])
  | some t =>
      if t.expiresAt ≤ now + bufferTime then
        (CallerPhase.awaitingFetch (refreshRequest a t), a, [refreshRequest a t])
      else
        (CallerPhase.done (Except.ok t.accessToken), a, [])

/-- Continuation after the awaited fetch resolves: on failure the throw
propagates; on success the new tokens are stored and the caller returns
the just-stored access token. -/
def resumePhase (net : Net) (req : TokenRequest) (a : StravaAuth) :
    CallerPhase × StravaAuth :=
  match net req with
  | FetchResponse.failure statusText message =>
      (CallerPhase.done (Except.error (AuthError.refreshFailed
        ("Failed to refresh token: " ++ effectiveMessage message statusText))),
       a)
  | FetchResponse.success data =>
      let newTokens : StravaTokens :=
        { accessToken := data.access_token
          refreshToken := data.refresh_token
          expiresAt := data.expires_at }
      (CallerPhase.done (Except.ok newTokens.accessToken),
       { a with tokens := some newTokens })

/-- One scheduler step of the two-caller system; actions that do not
apply to the addressed caller's phase are no-ops. -/
def step (net : Net) (now : Nat) (s : SysState) (act : SchedStep) : SysState :=
  match act with
  | SchedStep.run1 =>
      match s.c1 with
      | CallerPhase.start =>
          let r := startPhase now s.auth
          { s with c1 := r.1, auth := r.2.1, log := s.log ++ r.2.2 }
      | _ => s
  | SchedStep.run2 =>
      match s.c2 with
      | CallerPhase.start =>
          let r := startPhase now s.auth
          { s with c2 := r.1, auth := r.2.1, log := s.log ++ r.2.2 }
      | _ => s
  | SchedStep.resume1 =>
      match s.c1 with
      | CallerPhase.awaitingFetch req =>
          let r := resumePhase net req s.auth
          { s with c1 := r.1, auth := r.2 }
      | _ => s
  | SchedStep.resume2 =>
      match s.c2 with
      | CallerPhase.awaitingFetch req =>
          let r := resumePhase net req s.auth
          { s with c2 := r.1, auth := r.2 }
      | _ => s

/-- Run a whole schedule. -/
def runSchedule (net : Net) (now : Nat) (s : SysState)
    (sched : List SchedStep) : SysState :=
  sched.foldl (step net now) s

/-- Initial state: both callers about to enter `getValidAccessToken`. -/
def initSys (a : StravaAuth) : SysState :=
  { auth := a, c1 := CallerPhase.start, c2 := CallerPhase.start, log := [] }

/-! ### Helper lemmas -/

/-- `refreshAccessToken` on an installed credential, case-split on the
server's answer. -/
theorem refresh_some_eq (net : Net) (cid cs : String) (t : StravaTokens) :
    StravaAuth.refreshAccessToken net ⟨cid, cs, some t⟩ =
      match net (refreshRequest ⟨cid, cs, some t⟩ t) with
      | FetchResponse.failure statusText message =>
          (Except.error (AuthError.refreshFailed
            ("Failed to refresh token: " ++ effectiveMessage message statusText)),
           ⟨cid, cs, some t⟩, [refreshRequest ⟨cid, cs, some t⟩ t])
      | FetchResponse.success data =>
          (Except.ok ⟨data.access_token, data.refresh_token, data.expires_at⟩,
           ⟨cid, cs, some ⟨data.access_token, data.refresh_token, data.expires_at⟩⟩,
           [refreshRequest ⟨cid, cs, some t⟩ t]) := by
  cases h : net (refreshRequest ⟨cid, cs, some t⟩ t) <;>
    simp [StravaAuth.refreshAccessToken, h]

/-- `getValidAccessToken` on an expiring credential, case-split on the
server's answer to the refresh it performs. -/
theorem getValid_expiring_eq (net : Net) (now : Nat) (cid cs : String)
    (t : StravaTokens) (hexp : t.expiresAt ≤ now + bufferTime) :
    StravaAuth.getValidAccessToken net now ⟨cid, cs, some t⟩ =
      match net (refreshRequest ⟨cid, cs, some t⟩ t) with
      | FetchResponse.failure statusText message =>
          (Except.error (AuthError.refreshFailed
            ("Failed to refresh token: " ++ effectiveMessage message statusText)),
           ⟨cid, cs, some t⟩, [refreshRequest ⟨cid, cs, some t⟩ t])
      | FetchResponse.success data =>
          (Except.ok data.access_token,
           ⟨cid, cs, some ⟨data.access_token, data.refresh_token, data.expires_at⟩⟩,
           [refreshRequest ⟨cid, cs, some t⟩ t]) := by
  unfold StravaAuth.getValidAccessToken
  rw [refresh_some_eq]
  simp only [if_pos hexp]
  cases net (refreshRequest ⟨cid, cs, some t⟩ t) <;> rfl

/-- `getValidAccessToken` on a credential that is not close to expiry:
stored token back, no request, store unchanged. -/
theorem getValid_fresh_eq (net : Net) (now : Nat) (cid cs : String)
    (t : StravaTokens) (hexp : now + bufferTime < t.expiresAt) :
    StravaAuth.getValidAccessToken net now ⟨cid, cs, some t⟩ =
      (Except.ok t.accessToken, ⟨cid, cs, some t⟩, []) := by
  unfold StravaAuth.getValidAccessToken
  simp only [if_neg (Nat.not_le.mpr hexp)]

/-! ### Claims -/

/-- C1: for every installed credential with `expiresAt ≤ now + 300`,
`getValidAccessToken` sends exactly one request — a refresh exchange
against the token endpoint — and, when that refresh succeeds, returns
the newly issued access token and stores the server's triple, in
particular setting the stored `expiresAt` to the server's `expires_at`. -/
theorem C1_expiring_token_refreshes (net : Net) (now : Nat) (cid cs : String)
    (t : StravaTokens) (hexp : t.expiresAt ≤ now + bufferTime) :
    (StravaAuth.getValidAccessToken net now ⟨cid, cs, some t⟩).2.2 =
      [refreshRequest ⟨cid, cs, some t⟩ t] ∧
    (refreshRequest ⟨cid, cs, some t⟩ t).url = tokenEndpoint ∧
    (refreshRequest ⟨cid, cs, some t⟩ t).grant_type = GrantType.refreshToken ∧
    (∀ data : StravaTokenResponse,
      net (refreshRequest ⟨cid, cs, some t⟩ t) = FetchResponse.success data →
      StravaAuth.getValidAccessToken net now ⟨cid, cs, some t⟩ =
        (Except.ok data.access_token,
         ⟨cid, cs, some ⟨data.access_token, data.refresh_token, data.expires_at⟩⟩,
         [refreshRequest ⟨cid, cs, some t⟩ t])) := by
  refine ⟨?_, rfl, rfl, ?_⟩
  · rw [getValid_expiring_eq net now cid cs t hexp]
    cases net (refreshRequest ⟨cid, cs, some t⟩ t) <;> rfl
  · intro data h
    rw [getValid_expiring_eq net now cid cs t hexp, h]

/-- Witness for C1: Scenario B, `expiresAt = now + 60`, server answers
with a fresh token; the call returns `"new"` and stores
`expiresAt = now + 21600`. -/
theorem C1_witness :
    StravaAuth.getValidAccessToken
      (fun _ => FetchResponse.success ⟨"new", "new-r", 22600, 21600, "Bearer"⟩)
      1000 ⟨"id", "secret", some ⟨"old", "old-r", 1060⟩⟩ =
      (Except.ok "new",
       ⟨"id", "secret", some ⟨"new", "new-r", 22600⟩⟩,
       [refreshRequest ⟨"id", "secret", some ⟨"old", "old-r", 1060⟩⟩
          ⟨"old", "old-r", 1060⟩]) :=
  (C1_expiring_token_refreshes
      (fun _ => FetchResponse.success ⟨"new", "new-r", 22600, 21600, "Bearer"⟩)
      1000 "id" "secret" ⟨"old", "old-r", 1060⟩ (by decide)).2.2.2
    ⟨"new", "new-r", 22600, 21600, "Bearer"⟩ rfl

/-- C2: for every installed credential with `expiresAt > now + 300`,
`getValidAccessToken` returns the stored access token, sends no request,
and leaves the store unchanged. -/
theorem C2_fresh_token_no_network (net : Net) (now : Nat) (cid cs : String)
    (t : StravaTokens) (hexp : now + bufferTime < t.expiresAt) :
    StravaAuth.getValidAccessToken net now ⟨cid, cs, some t⟩ =
      (Except.ok t.accessToken, ⟨cid, cs, some t⟩, []) :=
  getValid_fresh_eq net now cid cs t hexp

/-- Witness for C2: Scenario A, `expiresAt = now + 10000`; the stored
token comes back and the request list is empty. -/
theorem C2_witness :
    StravaAuth.getValidAccessToken
      (fun _ => FetchResponse.failure "unreachable" none)
      1000 ⟨"id", "secret", some ⟨"tok", "r", 11000⟩⟩ =
      (Except.ok "tok", ⟨"id", "secret", some ⟨"tok", "r", 11000⟩⟩, []) :=
  C2_fresh_token_no_network
    (fun _ => FetchResponse.failure "unreachable" none)
    1000 "id" "secret" ⟨"tok", "r", 11000⟩ (by decide)

/-- C4: with no credential installed, `getValidAccessToken` and
`refreshAccessToken` both fail with the no-credential error, send no
request, and leave the store unauthenticated. -/
theorem C4_no_credential_errors (net : Net) (now : Nat) (cid cs : String) :
    StravaAuth.getValidAccessToken net now ⟨cid, cs, none⟩ =
      (Except.error
        (AuthError.noCredential "No tokens available. Please authenticate first."),
       ⟨cid, cs, none⟩, []) ∧
    StravaAuth.refreshAccessToken net ⟨cid, cs, none⟩ =
      (Except.error (AuthError.noCredential "No tokens available to refresh"),
       ⟨cid, cs, none⟩, []) :=
  ⟨rfl, rfl⟩

/-- C3: with a credential installed, a non-2xx refresh answer makes
`refreshAccessToken` fail with the refresh error carrying the
server-provided message and leaves the whole store — all three stored
fields — exactly as before; a 2xx answer replaces all three fields by
the server's values atomically (one assignment of the whole triple). -/
theorem C3_refresh_failure_preserves_state (net : Net) (cid cs : String)
    (t : StravaTokens) :
    (∀ statusText m, m ≠ "" →
      net (refreshRequest ⟨cid, cs, some t⟩ t) =
        FetchResponse.failure statusText (some m) →
      StravaAuth.refreshAccessToken net ⟨cid, cs, some t⟩ =
        (Except.error (AuthError.refreshFailed ("Failed to refresh token: " ++ m)),
         ⟨cid, cs, some t⟩, [refreshRequest ⟨cid, cs, some t⟩ t])) ∧
    (∀ statusText message,
      net (refreshRequest ⟨cid, cs, some t⟩ t) =
        FetchResponse.failure statusText message →
      (StravaAuth.refreshAccessToken net ⟨cid, cs, some t⟩).2.1 =
        ⟨cid, cs, some t⟩) ∧
    (∀ data : StravaTokenResponse,
      net (refreshRequest ⟨cid, cs, some t⟩ t) = FetchResponse.success data →
      StravaAuth.refreshAccessToken net ⟨cid, cs, some t⟩ =
        (Except.ok ⟨data.access_token, data.refresh_token, data.expires_at⟩,
         ⟨cid, cs, some ⟨data.access_token, data.refresh_token, data.expires_at⟩⟩,
         [refreshRequest ⟨cid, cs, some t⟩ t])) := by
  refine ⟨?_, ?_, ?_⟩
  · intro statusText m hm h
    rw [refresh_some_eq, h]
    simp [effectiveMessage, hm]
  · intro statusText message h
    rw [refresh_some_eq, h]
  · intro data h
    rw [refresh_some_eq, h]

/-- Witness for C3: Scenario C, the server answers 401 with message
`"Invalid refresh token"`; the error carries that message and the stored
credential is unchanged. -/
theorem C3_witness :
    StravaAuth.refreshAccessToken
      (fun _ => FetchResponse.failure "Unauthorized" (some "Invalid refresh token"))
      ⟨"id", "secret", some ⟨"old", "old-r", 1060⟩⟩ =
      (Except.error
        (AuthError.refreshFailed "Failed to refresh token: Invalid refresh token"),
       ⟨"id", "secret", some ⟨"old", "old-r", 1060⟩⟩,
       [refreshRequest ⟨"id", "secret", some ⟨"old", "old-r", 1060⟩⟩
          ⟨"old", "old-r", 1060⟩]) :=
  (C3_refresh_failure_preserves_state
      (fun _ => FetchResponse.failure "Unauthorized" (some "Invalid refresh token"))
      "id" "secret" ⟨"old", "old-r", 1060⟩).1
    "Unauthorized" "Invalid refresh token" (by decide) rfl

/-- C5: `exchangeToken` on a 2xx answer installs the returned credential
— overwriting any prior tokens state, including `none` — and returns it;
on a non-2xx answer it fails with the exchange error carrying the
server's message and leaves the store unchanged. -/
theorem C5_exchange_installs_or_preserves (net : Net) (cid cs code : String)
    (tk : Option StravaTokens) :
    (∀ data : StravaTokenResponse,
      net (exchangeRequest ⟨cid, cs, tk⟩ code) = FetchResponse.success data →
      StravaAuth.exchangeToken net ⟨cid, cs, tk⟩ code =
        (Except.ok ⟨data.access_token, data.refresh_token, data.expires_at⟩,
         ⟨cid, cs, some ⟨data.access_token, data.refresh_token, data.expires_at⟩⟩,
         [exchangeRequest ⟨cid, cs, tk⟩ code])) ∧
    (∀ statusText m, m ≠ "" →
      net (exchangeRequest ⟨cid, cs, tk⟩ code) =
        FetchResponse.failure statusText (some m) →
      StravaAuth.exchangeToken net ⟨cid, cs, tk⟩ code =
        (Except.error (AuthError.exchangeFailed ("Failed to exchange token: " ++ m)),
         ⟨cid, cs, tk⟩, [exchangeRequest ⟨cid, cs, tk⟩ code])) ∧
    (∀ statusText message,
      net (exchangeRequest ⟨cid, cs, tk⟩ code) =
        FetchResponse.failure statusText message →
      (StravaAuth.exchangeToken net ⟨cid, cs, tk⟩ code).2.1 = ⟨cid, cs, tk⟩) := by
  refine ⟨?_, ?_, ?_⟩
  · intro data h
    simp [StravaAuth.exchangeToken, h]
  · intro statusText m hm h
    simp [StravaAuth.exchangeToken, h, effectiveMessage, hm]
  · intro statusText message h
    simp [StravaAuth.exchangeToken, h]

/-- Witness for C5: Scenario D, exchanging `"abc123"` from the
unauthenticated state against a 200 answer installs and returns a fresh
credential. -/
theorem C5_witness :
    StravaAuth.exchangeToken
      (fun _ => FetchResponse.success ⟨"acc", "ref", 9999, 21600, "Bearer"⟩)
      ⟨"id", "secret", none⟩ "abc123" =
      (Except.ok ⟨"acc", "ref", 9999⟩,
       ⟨"id", "secret", some ⟨"acc", "ref", 9999⟩⟩,
       [exchangeRequest ⟨"id", "secret", none⟩ "abc123"]) :=
  (C5_exchange_installs_or_preserves
      (fun _ => FetchResponse.success ⟨"acc", "ref", 9999, 21600, "Bearer"⟩)
      "id" "secret" "abc123" none).1
    ⟨"acc", "ref", 9999, 21600, "Bearer"⟩ rfl

/-- C10: `setTokens` installs exactly the given triple, with no
validation at all — an `expiresAt` already in the past included — after
which `hasTokens` is `true`; a following `getValidAccessToken` on such an
expired triple sends the refresh request instead of failing with the
no-credential error. -/
theorem C10_setTokens_no_validation (net : Net) (now : Nat) (a : StravaAuth)
    (x y : String) (z : Nat) (hz : z ≤ now) :
    (a.setTokens x y z).tokens = some ⟨x, y, z⟩ ∧
    (a.setTokens x y z).hasTokens = true ∧
    (StravaAuth.getValidAccessToken net now (a.setTokens x y z)).2.2 =
      [refreshRequest (a.setTokens x y z) ⟨x, y, z⟩] ∧
    (∀ msg, (StravaAuth.getValidAccessToken net now (a.setTokens x y z)).1 ≠
      Except.error (AuthError.noCredential msg)) := by
  obtain ⟨cid, cs, tk⟩ := a
  have hz' : z ≤ now + bufferTime := Nat.le_trans hz (Nat.le_add_right now bufferTime)
  have he : (StravaAuth.mk cid cs tk).setTokens x y z = ⟨cid, cs, some ⟨x, y, z⟩⟩ := rfl
  rw [he]
  refine ⟨rfl, rfl, ?_, ?_⟩
  · rw [getValid_expiring_eq net now cid cs ⟨x, y, z⟩ hz']
    cases net (refreshRequest ⟨cid, cs, some ⟨x, y, z⟩⟩ ⟨x, y, z⟩) <;> rfl
  · intro msg
    rw [getValid_expiring_eq net now cid cs ⟨x, y, z⟩ hz']
    cases net (refreshRequest ⟨cid, cs, some ⟨x, y, z⟩⟩ ⟨x, y, z⟩) <;> simp

/-- Witness for C10: installing an already-expired triple and asking for
a valid token attempts a refresh (one request) rather than failing with
the no-credential error. -/
theorem C10_witness :
    (StravaAuth.setTokens ⟨"id", "secret", none⟩ "a" "r" 500).tokens =
      some ⟨"a", "r", 500⟩ ∧
    (StravaAuth.setTokens ⟨"id", "secret", none⟩ "a" "r" 500).hasTokens = true ∧
    (StravaAuth.getValidAccessToken (fun _ => FetchResponse.failure "down" none)
        1000 (StravaAuth.setTokens ⟨"id", "secret", none⟩ "a" "r" 500)).2.2 =
      [refreshRequest (StravaAuth.setTokens ⟨"id", "secret", none⟩ "a" "r" 500)
        ⟨"a", "r", 500⟩] ∧
    (∀ msg, (StravaAuth.getValidAccessToken (fun _ => FetchResponse.failure "down" none)
        1000 (StravaAuth.setTokens ⟨"id", "secret", none⟩ "a" "r" 500)).1 ≠
      Except.error (AuthError.noCredential msg)) :=
  C10_setTokens_no_validation (fun _ => FetchResponse.failure "down" none)
    1000 ⟨"id", "secret", none⟩ "a" "r" 500 (by decide)

/-- C7: once a credential is installed, no operation uninstalls it: after
`setTokens`, `exchangeToken`, `refreshAccessToken` or
`getValidAccessToken` — whether the call succeeded or failed —
`hasTokens` still reports `true`, so a (possibly stale) credential
remains installed. -/
theorem C7_never_unauthenticated (net : Net) (now : Nat) (a : StravaAuth)
    (code x y : String) (z : Nat) (h : a.hasTokens = true) :
    (a.setTokens x y z).hasTokens = true ∧
    (StravaAuth.exchangeToken net a code).2.1.hasTokens = true ∧
    (StravaAuth.refreshAccessToken net a).2.1.hasTokens = true ∧
    (StravaAuth.getValidAccessToken net now a).2.1.hasTokens = true := by
  obtain ⟨cid, cs, tk⟩ := a
  cases tk with
  | none => simp [StravaAuth.hasTokens] at h
  | some t =>
    refine ⟨rfl, ?_, ?_, ?_⟩
    · cases hn : net (exchangeRequest ⟨cid, cs, some t⟩ code) <;>
        simp [StravaAuth.exchangeToken, hn, StravaAuth.hasTokens]
    · rw [refresh_some_eq]
      cases net (refreshRequest ⟨cid, cs, some t⟩ t) <;> rfl
    · by_cases hexp : t.expiresAt ≤ now + bufferTime
      · rw [getValid_expiring_eq net now cid cs t hexp]
        cases net (refreshRequest ⟨cid, cs, some t⟩ t) <;> rfl
      · rw [getValid_fresh_eq net now cid cs t (Nat.not_le.mp hexp)]
        rfl

/-- Witness for C7: with a credential installed and a failing network,
every operation leaves `hasTokens` true. -/
theorem C7_witness :
    (StravaAuth.hasTokens ⟨"id", "s", some ⟨"a", "r", 10⟩⟩ = true) ∧
    ((StravaAuth.setTokens ⟨"id", "s", some ⟨"a", "r", 10⟩⟩ "b" "q" 20).hasTokens = true ∧
     (StravaAuth.exchangeToken (fun _ => FetchResponse.failure "down" none)
        ⟨"id", "s", some ⟨"a", "r", 10⟩⟩ "c").2.1.hasTokens = true ∧
     (StravaAuth.refreshAccessToken (fun _ => FetchResponse.failure "down" none)
        ⟨"id", "s", some ⟨"a", "r", 10⟩⟩).2.1.hasTokens = true ∧
     (StravaAuth.getValidAccessToken (fun _ => FetchResponse.failure "down" none)
        100 ⟨"id", "s", some ⟨"a", "r", 10⟩⟩).2.1.hasTokens = true) :=
  ⟨rfl,
   C7_never_unauthenticated (fun _ => FetchResponse.failure "down" none)
     100 ⟨"id", "s", some ⟨"a", "r", 10⟩⟩ "c" "b" "q" 20 rfl⟩

/-- One call against the store, with everything it needs to run
(network oracle, clock, arguments); `authUrl` and `hasCred` do not touch
the store's fields at all. -/
inductive Op where
  | setTk (accessToken refreshToken : String) (expiresAt : Nat)
  | exchange (net : Net) (code : String)
  | refresh (net : Net)
  | getValid (net : Net) (now : Nat)
  | authUrl (redirectUri scope : String)
  | hasCred

/-- The store state after one call. -/
def applyOp (a : StravaAuth) : Op → StravaAuth
  | Op.setTk x y z => a.setTokens x y z
  | Op.exchange net code => (StravaAuth.exchangeToken net a code).2.1
  | Op.refresh net => (StravaAuth.refreshAccessToken net a).2.1
  | Op.getValid net now => (StravaAuth.getValidAccessToken net now a).2.1
  | Op.authUrl _ _ => a
  | Op.hasCred => a

/-- One call never touches the client identity. -/
theorem applyOp_clientIdentity (a : StravaAuth) (op : Op) :
    (applyOp a op).clientId = a.clientId ∧
    (applyOp a op).clientSecret = a.clientSecret := by
  obtain ⟨cid, cs, tk⟩ := a
  cases op with
  | setTk x y z => exact ⟨rfl, rfl⟩
  | exchange net code =>
    cases hn : net (exchangeRequest ⟨cid, cs, tk⟩ code) <;>
      simp [applyOp, StravaAuth.exchangeToken, hn]
  | refresh net =>
    cases tk with
    | none => exact ⟨rfl, rfl⟩
    | some t =>
      simp only [applyOp]
      rw [refresh_some_eq]
      cases net (refreshRequest ⟨cid, cs, some t⟩ t) <;> exact ⟨rfl, rfl⟩
  | getValid net now =>
    cases tk with
    | none => exact ⟨rfl, rfl⟩
    | some t =>
      simp only [applyOp]
      by_cases hexp : t.expiresAt ≤ now + bufferTime
      · rw [getValid_expiring_eq net now cid cs t hexp]
        cases net (refreshRequest ⟨cid, cs, some t⟩ t) <;> exact ⟨rfl, rfl⟩
      · rw [getValid_fresh_eq net now cid cs t (Nat.not_le.mp hexp)]
        exact ⟨rfl, rfl⟩
  | authUrl r s => exact ⟨rfl, rfl⟩
  | hasCred => exact ⟨rfl, rfl⟩

/-- C9: after any sequence of calls, the client identity pair equals the
values the store was constructed with. -/
theorem C9_client_identity_immutable (ops : List Op) (a : StravaAuth) :
    (ops.foldl applyOp a).clientId = a.clientId ∧
    (ops.foldl applyOp a).clientSecret = a.clientSecret := by
  induction ops generalizing a with
  | nil => exact ⟨rfl, rfl⟩
  | cons op rest ih =>
    have h1 := applyOp_clientIdentity a op
    have h2 := ih (applyOp a op)
    exact ⟨h2.1.trans h1.1, h2.2.trans h1.2⟩

/-- C8: `getAuthorizationUrl` is a pure function — of the client id, the
redirect target and the scope only, independent of the stored credential
and any network — and the URL it returns is the authorize endpoint
carrying exactly the query parameters `client_id`, `redirect_uri`,
`response_type=code` and `scope`, form-urlencoded. -/
theorem C8_authorization_url (cid cs : String) (tk : Option StravaTokens)
    (r s : String) :
    StravaAuth.getAuthorizationUrl ⟨cid, cs, tk⟩ r s =
      "https://www.strava.com/oauth/authorize?client_id=" ++ urlencode cid ++
        "&redirect_uri=" ++ urlencode r ++ "&response_type=code&scope=" ++
        urlencode s ∧
    StravaAuth.getAuthorizationUrl ⟨cid, cs, tk⟩ r s =
      StravaAuth.getAuthorizationUrl ⟨cid, "", none⟩ r s := by
  constructor
  · have e1 : urlencode "client_id" = "client_id" := by decide
    have e2 : urlencode "redirect_uri" = "redirect_uri" := by decide
    have e3 : urlencode "response_type" = "response_type" := by decide
    have e4 : urlencode "code" = "code" := by decide
    have e5 : urlencode "scope" = "scope" := by decide
    have m1 : ∀ x : String, x ++ "&" ++ "redirect_uri" ++ "=" = x ++ "&redirect_uri=" := by
      intro x
      simp only [String.append_assoc]
      congr 1
    have m2 : ∀ x : String,
        x ++ "&" ++ "response_type" ++ "=" ++ "code" ++ "&" ++ "scope" ++ "=" =
          x ++ "&response_type=code&scope=" := by
      intro x
      simp only [String.append_assoc]
      congr 1
    simp only [StravaAuth.getAuthorizationUrl, serializeParams, authorizeEndpoint]
    rw [e1, e2, e3, e4, e5]
    simp only [← String.append_assoc]
    simp only [m1, m2]
    simp
  · rfl

/-- One caller sends at most one request when it runs from its entry
point, and stops being runnable-from-start afterwards. -/
def pendingStarts : CallerPhase → Nat
  | CallerPhase.start => 1
  | _ => 0

/-- Bound on what the synchronous prefix of one caller can emit: at most
one request, and the caller leaves its start phase. -/
theorem startPhase_bound (now : Nat) (a : StravaAuth) :
    (startPhase now a).2.2.length + pendingStarts (startPhase now a).1 ≤ 1 := by
  cases h : a.tokens with
  | none => simp [startPhase, h, pendingStarts]
  | some t =>
    by_cases hexp : t.expiresAt ≤ now + bufferTime <;>
      simp [startPhase, h, hexp, pendingStarts]

/-- Requests sent so far plus callers still able to send one. -/
def measureSys (s : SysState) : Nat :=
  s.log.length + pendingStarts s.c1 + pendingStarts s.c2

/-- One scheduler step never increases the measure. -/
theorem step_measure (net : Net) (now : Nat) (s : SysState) (act : SchedStep) :
    measureSys (step net now s act) ≤ measureSys s := by
  obtain ⟨auth, c1, c2, log⟩ := s
  cases act with
  | run1 =>
    cases c1 with
    | start =>
      have hb := startPhase_bound now auth
      simp only [step, measureSys, List.length_append, pendingStarts] at hb ⊢
      omega
    | awaitingFetch req => exact Nat.le_refl _
    | done res => exact Nat.le_refl _
  | run2 =>
    cases c2 with
    | start =>
      have hb := startPhase_bound now auth
      simp only [step, measureSys, List.length_append, pendingStarts] at hb ⊢
      omega
    | awaitingFetch req => exact Nat.le_refl _
    | done res => exact Nat.le_refl _
  | resume1 =>
    cases c1 with
    | start => exact Nat.le_refl _
    | awaitingFetch req =>
      cases hr : net req with
      | success data =>
        simp only [step, measureSys, resumePhase, hr, pendingStarts]
        omega
      | failure statusText message =>
        simp only [step, measureSys, resumePhase, hr, pendingStarts]
        omega
    | done res => exact Nat.le_refl _
  | resume2 =>
    cases c2 with
    | start => exact Nat.le_refl _
    | awaitingFetch req =>
      cases hr : net req with
      | success data =>
        simp only [step, measureSys, resumePhase, hr, pendingStarts]
        omega
      | failure statusText message =>
        simp only [step, measureSys, resumePhase, hr, pendingStarts]
        omega
    | done res => exact Nat.le_refl _

/-- Whole-schedule version of `step_measure`. -/
theorem runSchedule_measure (net : Net) (now : Nat) (sched : List SchedStep)
    (s : SysState) : measureSys (runSchedule net now s sched) ≤ measureSys s := by
  induction sched generalizing s with
  | nil => exact Nat.le_refl _
  | cons act rest ih =>
    exact Nat.le_trans (ih (step net now s act)) (step_measure net now s act)

/-- C6 counterexample: the code has no single-flight guard.  With one
shared store holding a credential 60 s from expiry and a schedule in
which both callers run their expiry check before either refresh response
arrives, the pair of concurrent `getValidAccessToken` calls sends two
refresh exchanges — not at most one. -/
theorem C6_counterexample :
    ¬((runSchedule
        (fun _ => FetchResponse.success ⟨"new", "new-r", 22600, 21600, "Bearer"⟩)
        1000 (initSys ⟨"id", "secret", some ⟨"old", "old-r", 1060⟩⟩)
        [SchedStep.run1, SchedStep.run2, SchedStep.resume1, SchedStep.resume2]).log.length ≤ 1) ∧
    (runSchedule
        (fun _ => FetchResponse.success ⟨"new", "new-r", 22600, 21600, "Bearer"⟩)
        1000 (initSys ⟨"id", "secret", some ⟨"old", "old-r", 1060⟩⟩)
        [SchedStep.run1, SchedStep.run2, SchedStep.resume1, SchedStep.resume2]).log =
      [refreshRequest ⟨"id", "secret", some ⟨"old", "old-r", 1060⟩⟩ ⟨"old", "old-r", 1060⟩,
       refreshRequest ⟨"id", "secret", some ⟨"old", "old-r", 1060⟩⟩ ⟨"old", "old-r", 1060⟩] := by
  constructor
  · decide
  · rfl

/-- C6 amended: the two-caller system sends at most one refresh exchange
per caller — so at most two in total for the pair, under every schedule,
store state and network; the literal single-flight bound of one request
does not hold (see the counterexample). -/
theorem C6_amended_two_callers_at_most_two_refreshes (net : Net) (now : Nat)
    (a : StravaAuth) (sched : List SchedStep) :
    (runSchedule net now (initSys a) sched).log.length ≤ 2 := by
  have h := runSchedule_measure net now sched (initSys a)
  have hinit : measureSys (initSys a) = 2 := rfl
  have hle : (runSchedule net now (initSys a) sched).log.length ≤
      measureSys (runSchedule net now (initSys a) sched) := by
    simp only [measureSys]
    omega
  omega

end StravaMcp
